import Mathlib

set_option autoImplicit false

/-!
Verification development for the GS_search repository (Go).

The repository has three components sharing two small library packages:

* `pkg/vectorization`: an HTTP client for an external embedding service
  (`Client.VectorizeBatch`, `Client.Vectorize`);
* `pkg/store`: a Redis-backed vector store (`Client.StoreArticles`, ...);
* `services/importer`: the import pipeline (`Importer.fetchPostsPage`,
  `Importer.vectorizeArticles`, `Importer.storeArticles`,
  `Importer.vectorizePostsPage`, `Importer.initialImport`);
* `services/retrieval`: the search HTTP handler (`Server.handleSearch`).

Each Go function is embedded as an executable Lean definition.  External
collaborators (the HTTP transport, the JSON codec, base64 decoding, the
remote embedding service, the Redis server) are passed in as explicit
oracle parameters: a definition's behaviour on a given oracle mirrors the
Go function's behaviour against collaborators behaving that way.  Effects
that the Go code performs (remote calls, store writes) are returned as
explicit data (call logs, written batches) so that "no remote call is
issued" style properties are directly statable.  Goroutine scheduling in
`initialImport` is embedded as a small-step transition relation over a
scheduler state; a page task is dispatched and later finishes atomically,
which is faithful for the observed properties because each page task
touches the shared store through exactly one `StoreArticles` call.
-/

deriving instance DecidableEq for Except

/-- Result of a Go function that can return a value, return a non-nil
error, or panic (used where the Go code indexes a slice without a bounds
check). -/
inductive GoRes (ε : Type) (α : Type) where
  | ok (a : α)
  | err (e : ε)
  | panicked
deriving DecidableEq

/-- Map the error component of a `GoRes`. -/
def GoRes.mapErr {ε ε2 α : Type} (f : ε → ε2) : GoRes ε α → GoRes ε2 α
  | .ok a => .ok a
  | .err e => .err (f e)
  | .panicked => .panicked

namespace vectorization

/-- One element of the embedding service response
(`EmbeddingData` in pkg/vectorization/client.go): the embedding is a
base64 wire string, decoded by the client. -/
structure EmbeddingData where
  embedding : String
  dimension : Int
deriving DecidableEq

/-- The embedding service response body (`Response` in the source). -/
structure Response where
  embeddings : List EmbeddingData
deriving DecidableEq

/-- What the HTTP POST to the embedding service can yield, as observed by
`VectorizeBatch` through the transport, `io.ReadAll` and `json.Unmarshal`
library layers (all external collaborators).  Each constructor carries the
error message or parsed body the Go code sees. -/
inductive RemoteReply where
  | transportErr (e : String)
  | badStatus (status : Int) (body : String)
  | readErr (e : String)
  | unmarshalErr (e : String)
  | parsed (r : Response)
deriving DecidableEq

/-- Errors returned by the vectorizer client, one constructor per
`fmt.Errorf` site in pkg/vectorization/client.go. -/
inductive VecErr where
  | emptyInput
  | emptyText
  | transport (e : String)
  | badStatus (status : Int) (body : String)
  | readFail (e : String)
  | unmarshalFail (e : String)
  | countMismatch (expected got : Nat)
  | decodeFail (idx : Nat) (e : String)
  | emptyEmbedding (idx : Nat)
deriving DecidableEq

/-- The Go error message of each `VecErr`, matching the `fmt.Errorf`
format strings in the source. -/
def VecErr.message : VecErr → String
  | .emptyInput => "texts cannot be empty"
  | .emptyText => "text cannot be empty"
  | .transport e => "failed to send request to vectorizer: " ++ e
  | .badStatus st body => "vectorizer returned status " ++ toString st ++ ": " ++ body
  | .readFail e => "failed to read vectorizer response: " ++ e
  | .unmarshalFail e => "failed to unmarshal vectorizer response: " ++ e
  | .countMismatch expected got =>
      "expected " ++ toString expected ++ " embeddings, got " ++ toString got
  | .decodeFail i e => "failed to decode embedding bytes at index " ++ toString i ++ ": " ++ e
  | .emptyEmbedding i => "received empty embedding at index " ++ toString i ++ " from vectorizer"

/-- The base64 decoding oracle: `base64.StdEncoding.DecodeString`
(library code), yielding the byte slice or a decode error message. -/
def Decode64 : Type := String → Except String (List Nat)

/-- The remote embedding service oracle: what one POST of the given texts
to `/embed` yields. -/
def Remote : Type := List String → RemoteReply

/-- The per-element decode loop of `VectorizeBatch` (the `for i, embData`
loop): base64-decode each wire embedding, failing on a decode error or an
empty decoded byte slice, keeping the response order. -/
def decodeEmbeddings (decode : Decode64) : Nat → List EmbeddingData → Except VecErr (List (List Nat))
  | _, [] => .ok []
  | i, ed :: rest =>
    match decode ed.embedding with
    | .error e => .error (.decodeFail i e)
    | .ok bytes =>
      if bytes.length = 0 then .error (.emptyEmbedding i)
      else (decodeEmbeddings decode (i + 1) rest).map (fun tl => bytes :: tl)

/-- What `VectorizeBatch` makes of the POST reply, matching the source
order: status check, read, unmarshal, count check, per-element decode. -/
def batchFromReply (decode : Decode64) (texts : List String) (reply : RemoteReply) :
    Except VecErr (List (List Nat)) :=
  match reply with
  | .transportErr e => .error (.transport e)
  | .badStatus st body => .error (.badStatus st body)
  | .readErr e => .error (.readFail e)
  | .unmarshalErr e => .error (.unmarshalFail e)
  | .parsed r =>
    if r.embeddings.length ≠ texts.length then
      .error (.countMismatch texts.length r.embeddings.length)
    else decodeEmbeddings decode 0 r.embeddings

/-- `Client.VectorizeBatch` from pkg/vectorization/client.go.  The second
component is the list of remote POST requests attempted (each entry is the
batch of texts sent), so that "never attempts a remote call" is statable.
`json.Marshal` of a `map[string][]string` cannot fail and is elided. -/
def VectorizeBatch (decode : Decode64) (remote : Remote) (texts : List String) :
    Except VecErr (List (List Nat)) × List (List String) :=
  if texts.length = 0 then (.error .emptyInput, [])
  else (batchFromReply decode texts (remote texts), [texts])

/-- `Client.Vectorize` from pkg/vectorization/client.go: rejects the empty
string, otherwise delegates to `VectorizeBatch` with a one-element slice
and returns `embeddings[0]` (an unchecked index, hence the `panicked`
case, which is proved unreachable). -/
def Vectorize (decode : Decode64) (remote : Remote) (text : String) :
    GoRes VecErr (List Nat) × List (List String) :=
  if text = "" then (.err .emptyText, [])
  else
    match VectorizeBatch decode remote [text] with
    | (.error e, calls) => (.err e, calls)
    | (.ok embs, calls) =>
      match embs with
      | [] => (.panicked, calls)
      | e :: _ => (.ok e, calls)

end vectorization

namespace store

/-- `store.Article`, the model for a stored article
(pkg/store/redis.go).  Byte slices are embedded as `List Nat`. -/
structure Article where
  title : String
  link : String
  embedding : List Nat
deriving DecidableEq

/-- The fields written by one `HSet` for an article: the Redis hash value
under key `"article:" ++ title`. -/
structure RedisRecord where
  title : String
  link : String
  embedding : List Nat
deriving DecidableEq

/-- The Redis database restricted to what this repository touches: an
association list from hash key to hash value.  `HSet` overwrites the
value under an existing key and appends a fresh key otherwise. -/
abbrev Db : Type := List (String × RedisRecord)

/-- One `pipe.HSet` call: last-write-wins per key. -/
def hset (db : Db) (key : String) (v : RedisRecord) : Db :=
  if db.any (fun kv => kv.1 = key) then
    db.map (fun kv => if kv.1 = key then (key, v) else kv)
  else db ++ [(key, v)]

/-- `Client.StoreArticles` from pkg/store/redis.go.  `exec` is the Redis
pipeline oracle: `none` means `pipe.Exec` succeeds, `some e` that it
fails with message `e`.  The second component counts the remote pipeline
executions issued, so that "no remote call" is statable.  On the empty
batch the Go code returns nil before building a pipeline. -/
def StoreArticles (exec : Option String) (db : Db) (articles : List Article) :
    Except String Db × Nat :=
  if articles.length = 0 then (.ok db, 0)
  else
    match exec with
    | some e => (.error ("failed to store articles: " ++ e), 1)
    | none =>
      (.ok (articles.foldl
        (fun d a => hset d ("article:" ++ a.title) ⟨a.title, a.link, a.embedding⟩) db), 1)

/-- `store.SearchHit`, one result from `VectorSearch`. -/
structure SearchHit where
  title : String
  link : String
  score : Float

end store

namespace retrieval

/-- `retrieval.SearchRequest`: the decoded body of POST /search. -/
structure SearchRequest where
  query : String

/-- `retrieval.SearchResult`: one element of the response payload. -/
structure SearchResult where
  title : String
  url : String
  score : Float

/-- `retrieval.SearchResponse`: the /search response payload; `count` is
`len(results)`. -/
structure SearchResponse where
  results : List SearchResult
  count : Nat

/-- What the handler writes back: an `http.Error` status and message, a
JSON payload with its status, or a panic propagated out of the handler
(in which case no well-formed response is produced). -/
inductive HttpOut where
  | httpError (status : Int) (msg : String)
  | jsonOut (status : Int) (body : SearchResponse)
  | panicked

/-- `Server.handleSearch` from services/retrieval/internal/server.go.
`vec` is the `Vectorizer` collaborator (`Vectorize(text)`), `search` the
`Store` collaborator (`VectorSearch(emb, k)`), `method` the request
method, and `body` the result of decoding the request body.  Encoding the
response cannot fail for the payloads this repository produces and is
elided. -/
def handleSearch (vec : String → GoRes String (List Nat))
    (search : List Nat → Int → Except String (List store.SearchHit))
    (method : String) (body : Except String SearchRequest) : HttpOut :=
  if method ≠ "POST" then .httpError 405 "Method not allowed"
  else
    match body with
    | .error _ => .httpError 400 "Invalid request body"
    | .ok req =>
      match vec req.query with
      | .panicked => .panicked
      | .err _ => .httpError 500 "Failed to generate query embedding"
      | .ok emb =>
        match search emb 10 with
        | .error _ => .httpError 500 "Vector search failed"
        | .ok hits =>
          let results := hits.map (fun h => SearchResult.mk h.title h.link h.score)
          .jsonOut 200 ⟨results, results.length⟩

/-- The production wiring of the retrieval service (cmd/main.go): the
`Vectorizer` collaborator is `vectorization.Client.Vectorize`, its error
surfaced as a Go error message. -/
def prodVec (decode : vectorization.Decode64) (remote : vectorization.Remote) :
    String → GoRes String (List Nat) :=
  fun text => ((vectorization.Vectorize decode remote text).1).mapErr vectorization.VecErr.message

end retrieval

namespace Importer

/-- Digit run value for `atoi`: `some` of the decimal value when the
character list is non-empty and all digits, `none` otherwise. -/
def digitsVal (cs : List Char) : Option Nat :=
  if cs.isEmpty then none
  else cs.foldlM (fun acc c => if c.isDigit then some (acc * 10 + (c.toNat - 48)) else none) 0

/-- `strconv.Atoi` (library code the importer relies on): an optional
sign followed by at least one decimal digit and nothing else; anything
else is a parse error.  Integer overflow is not modelled (page counts are
far below the int range). -/
def atoi (s : String) : Option Int :=
  match s.data with
  | '+' :: rest => (digitsVal rest).map (fun n => (n : Int))
  | '-' :: rest => (digitsVal rest).map (fun n => -(n : Int))
  | cs => (digitsVal cs).map (fun n => (n : Int))

/-- `importer.WPPost`: a WordPress post from the REST API.  The Go struct
holds `map[string]interface{}` fields; the importer only ever reads the
`"rendered"` entry with an ok-ignored string type assertion, so the model
keeps exactly that observation: `some s` when the entry exists and is a
string, `none` otherwise (the assertion then yields `""`). -/
structure WPPost where
  titleRendered : Option String
  excerptRendered : Option String
  link : String
deriving DecidableEq

/-- One HTTP response from the WordPress source as observed by
`fetchPostsPage`: the `X-WP-TotalPages` header as returned by
`Header.Get` (the empty string when absent), the status code, and the
result of JSON-decoding the body into `[]WPPost`. -/
structure FetchResp where
  totalPagesHeader : String
  statusCode : Int
  body : Except String (List WPPost)
deriving DecidableEq

/-- Errors of `fetchPostsPage`, one constructor per return site. -/
inductive FetchErr where
  | transport (e : String)
  | parseTotalPages (hdr : String)
  | badStatus (code : Int)
  | decodeBody (e : String)
deriving DecidableEq

/-- The `strconv.Atoi` error message for a non-numeric input, as wrapped
into "failed to parse total pages: %w". -/
def atoiErrMessage (s : String) : String :=
  "strconv.Atoi: parsing " ++ s ++ ": invalid syntax"

/-- Go error message of each `FetchErr`, matching the `fmt.Errorf`
format strings in fetchPostsPage. -/
def FetchErr.message : FetchErr → String
  | .transport e => "failed to create request: " ++ e
  | .parseTotalPages hdr => "failed to parse total pages: " ++ atoiErrMessage hdr
  | .badStatus code => "failed to fetch posts, status code: " ++ toString code
  | .decodeBody e => "failed to decode response: " ++ e

/-- `Importer.fetchPostsPage` applied to the transport's reply for one
page (`.error` is a failed `httpClient.Get`).  Faithful to the source
order: the total-pages header is parsed BEFORE the status code is
checked, and the body is decoded last. -/
def fetchPostsPage (reply : Except String FetchResp) : Except FetchErr (List WPPost × Int) :=
  match reply with
  | .error e => .error (.transport e)
  | .ok resp =>
    match atoi resp.totalPagesHeader with
    | none => .error (.parseTotalPages resp.totalPagesHeader)
    | some nbPages =>
      if resp.statusCode ≠ 200 then .error (.badStatus resp.statusCode)
      else
        match resp.body with
        | .error e => .error (.decodeBody e)
        | .ok posts => .ok (posts, nbPages)

/-- `importer.Article`: the data from a website post. -/
structure Article where
  title : String
  description : String
  link : String
deriving DecidableEq

/-- `importer.VectorizedArticle`: an article with its embedding. -/
structure VectorizedArticle where
  article : Article
  embedding : List Nat
deriving DecidableEq

/-- The conversion from a fetched `WPPost` to an `Article` performed
inside `vectorizePostsPage` (ok-ignored type assertions yield ""). -/
def postToArticle (p : WPPost) : Article :=
  ⟨p.titleRendered.getD "", p.excerptRendered.getD "", p.link⟩

/-- The `textsToVectorize` slice built by `vectorizeArticles`:
`fmt.Sprintf("%s. %s", title, description)` per article, in order. -/
def textsToVectorize (articles : List Article) : List String :=
  articles.map (fun a => a.title ++ ". " ++ a.description)

/-- The pairing loop of `vectorizeArticles`: `for i, embedding := range
embeddings` reads `articles[i]` with no bounds check of its own, so when
the embeddings outnumber the articles the indexing panics (`none`). -/
def pairEmbeddings : List Article → List (List Nat) → Option (List VectorizedArticle)
  | _, [] => some []
  | [], _ :: _ => none
  | a :: as, e :: es => (pairEmbeddings as es).map (fun tl => ⟨a, e⟩ :: tl)

/-- The `Vectorizer` interface collaborator of the importer
(`VectorizeBatch(texts) ([][]byte, error)`), error as a Go message. -/
abbrev Vectorizer : Type := List String → Except String (List (List Nat))

/-- `Importer.vectorizeArticles`: build the texts, call the vectorizer
collaborator once, and pair embedding i with article i. -/
def vectorizeArticles (vec : Vectorizer) (articles : List Article) :
    GoRes String (List VectorizedArticle) :=
  match vec (textsToVectorize articles) with
  | .error e => .err ("failed to vectorize articles in batch: " ++ e)
  | .ok embeddings =>
    match pairEmbeddings articles embeddings with
    | none => .panicked
    | some vas => .ok vas

/-- The `Store` interface collaborator of the importer: `none` means the
`StoreArticles` call succeeds for that batch, `some e` that it returns
error `e`.  The batches written by successful calls are collected by the
caller, mirroring the repository's own mock store. -/
abbrev StoreIface : Type := List store.Article → Option String

/-- `Importer.storeArticles`: convert the vectorized articles to
`store.Article` values and issue one `StoreArticles` call; returns the
batch written on success. -/
def storeArticles (sto : StoreIface) (vas : List VectorizedArticle) :
    Except String (List store.Article) :=
  let articles := vas.map (fun va => store.Article.mk va.article.title va.article.link va.embedding)
  match sto articles with
  | some e => .error ("failed to store articles: " ++ e)
  | none => .ok articles

/-- The collaborators of one `Importer` value: the WordPress source
transport (indexed by page and hitsPerPage), the `Vectorizer` and the
`Store`. -/
structure World where
  fetch : Int → Int → Except String FetchResp
  vec : Vectorizer
  sto : StoreIface

/-- The observable outcome of one `vectorizePostsPage` call: the returned
value (`ok` carries nbPages), the batch of articles this call wrote to
the store, and the number of `StoreArticles` calls it issued. -/
structure PageRun where
  result : GoRes String Int
  stored : List store.Article
  storeCalls : Nat
deriving DecidableEq

/-- `Importer.vectorizePostsPage`: fetch one page, convert the posts,
vectorize, store.  Error wrapping matches the `fmt.Errorf` chain of the
source; on any error the call stores nothing further. -/
def vectorizePostsPage (w : World) (page hitsPerPage : Int) : PageRun :=
  match fetchPostsPage (w.fetch page hitsPerPage) with
  | .error e =>
    ⟨.err ("failed to fetch posts for page " ++ toString page ++ ": " ++ e.message), [], 0⟩
  | .ok (posts, nbPages) =>
    let articles := posts.map postToArticle
    match vectorizeArticles w.vec articles with
    | .panicked => ⟨.panicked, [], 0⟩
    | .err e => ⟨.err ("failed to vectorize articles: " ++ e), [], 0⟩
    | .ok vas =>
      match storeArticles w.sto vas with
      | .error e => ⟨.err ("failed to store articles: " ++ e), [], 1⟩
      | .ok arts => ⟨.ok nbPages, arts, 1⟩

end Importer

namespace Importer

/-- State of the bounded-concurrency fan-out of `initialImport` over
pages `2..N`: the next page the loop will hand to `grp.Go`, the pages
whose tasks are in flight, the pages whose tasks have finished (in
completion order), the content of the store, and the error cell of the
`errgroup` (first task error wins, later errors are dropped). -/
structure SchedState where
  nextPage : Int
  running : List Int
  done : List Int
  store : List store.Article
  firstErr : Option String
deriving DecidableEq

/-- Scheduler state right after the sequential page-1 call: the loop is
about to dispatch page 2, nothing is in flight, the store holds whatever
page 1 wrote, no error recorded. -/
def initSched (st1 : List store.Article) : SchedState :=
  ⟨2, [], [], st1, none⟩

/-- The `errgroup` error cell update at task completion: the first
non-nil task error is recorded, subsequent ones are dropped. -/
def recordErr (cur : Option String) (res : GoRes String Int) : Option String :=
  match cur with
  | some e => some e
  | none =>
    match res with
    | .err e => some e
    | _ => none

/-- One scheduling step of the fan-out in `initialImport`.  `dispatch`
is `grp.Go` admitting a new task, which the concurrency limit `C` gates;
`finish` is a dispatched page task running to completion, appending its
writes to the shared store and offering its result to the error cell.  A
task whose body would panic never finishes (the process dies), so
`finish` carries a no-panic side condition. -/
inductive Step (w : World) (C : Nat) (N : Int) : SchedState → SchedState → Prop where
  | dispatch (s : SchedState) (hle : s.nextPage ≤ N) (hcap : s.running.length < C) :
      Step w C N s
        { s with nextPage := s.nextPage + 1, running := s.running ++ [s.nextPage] }
  | finish (s : SchedState) (p : Int) (hmem : p ∈ s.running)
      (hnp : (vectorizePostsPage w p 100).result ≠ .panicked) :
      Step w C N s
        { s with running := s.running.erase p,
                 done := s.done ++ [p],
                 store := s.store ++ (vectorizePostsPage w p 100).stored,
                 firstErr := recordErr s.firstErr (vectorizePostsPage w p 100).result }

/-- Interleavings of the fan-out: every run of `initialImport` after the
page-1 call follows this relation. -/
def Reachable (w : World) (C : Nat) (N : Int) : SchedState → SchedState → Prop :=
  Relation.ReflTransGen (Step w C N)

/-- The point where `grp.Wait` returns: the dispatch loop has passed
page `N` and every dispatched task has finished. -/
def Terminal (N : Int) (s : SchedState) : Prop :=
  N < s.nextPage ∧ s.running = []

/-- Observable outcome of one `initialImport` call: the returned error
(if any) and the content of the store afterwards. -/
inductive ImportResult where
  | err (msg : String) (store : List store.Article)
  | ok (store : List store.Article)
deriving DecidableEq

/-- What `initialImport` returns once `grp.Wait` has drained the group:
the first recorded task error, wrapped, or nil. -/
def schedOutcome (s : SchedState) : ImportResult :=
  match s.firstErr with
  | some e => .err ("error during initial import: " ++ e) s.store
  | none => .ok s.store

/-- `Importer.initialImport` with collaborators `w`, concurrency limit
`C` (`maxGoroutines`) and initial store content `st0`.  Page 1 is
fetched sequentially at hitsPerPage 100; on its failure the call returns
at once.  Otherwise pages `2..nbPages` run under the scheduler and the
outcome is read off the terminal state. -/
inductive InitialImport (w : World) (C : Nat) (st0 : List store.Article) : ImportResult → Prop where
  | firstPageErr (e : String) (h : (vectorizePostsPage w 1 100).result = .err e) :
      InitialImport w C st0
        (.err ("failed to fetch number of pages: " ++ e)
          (st0 ++ (vectorizePostsPage w 1 100).stored))
  | completes (n : Int) (s : SchedState)
      (h1 : (vectorizePostsPage w 1 100).result = .ok n)
      (hr : Reachable w C n (initSched (st0 ++ (vectorizePostsPage w 1 100).stored)) s)
      (ht : Terminal n s) :
      InitialImport w C st0 (schedOutcome s)

/-- Everything the scheduler preserves: page-count bounds, the bounded
in-flight set, the one-task-per-page accounting, the store as the
page-1 store extended by exactly the finished tasks' writes, and the
error cell holding an error of a finished task iff one failed. -/
structure Inv (w : World) (C : Nat) (N : Int) (st1 : List store.Article) (s : SchedState) : Prop where
  lb : 2 ≤ s.nextPage
  ub : s.nextPage = 2 ∨ s.nextPage ≤ N + 1
  cap : s.running.length ≤ C
  cnt : ∀ p : Int, (s.running ++ s.done).count p = if 2 ≤ p ∧ p < s.nextPage then 1 else 0
  sto : s.store = st1 ++ (s.done.map (fun p => (vectorizePostsPage w p 100).stored)).flatten
  ferr : ∀ e, s.firstErr = some e → ∃ p ∈ s.done, (vectorizePostsPage w p 100).result = .err e
  fok : s.firstErr = none → ∀ p ∈ s.done, ∀ e, (vectorizePostsPage w p 100).result ≠ .err e

end Importer

namespace Importer

/-- A concrete three-page world used by the run witnesses: page 1 yields
one article, page 2 answers 500 (with a numeric total-pages header),
page 3 yields one article; the vectorizer and the store always
succeed. -/
def wEx : World :=
  ⟨fun page _ =>
      if page = 2 then .ok ⟨"3", 500, .ok []⟩
      else if page = 3 then .ok ⟨"3", 200, .ok [⟨some "t3", some "d", "l3"⟩]⟩
      else .ok ⟨"3", 200, .ok [⟨some "t1", some "d", "l1"⟩]⟩,
   fun texts => .ok (texts.map (fun _ => [1])),
   fun _ => none⟩

/-- The page-2 error message in `wEx`. -/
def msg2Ex : String :=
  "failed to fetch posts for page 2: failed to fetch posts, status code: 500"

/-- Store content after the sequential page-1 call in `wEx` starting
from the empty store. -/
def st1Ex : List store.Article := [store.Article.mk "t1" "l1" [1]]

/-- Intermediate scheduler states of the concrete run in `wEx` with
concurrency limit 1: dispatch 2, finish 2 (fails), dispatch 3,
finish 3 (succeeds). -/
def s1Ex : SchedState := ⟨3, [2], [], st1Ex, none⟩

/-- Scheduler state after page 2 finished with its error. -/
def s2Ex : SchedState := ⟨3, [], [2], st1Ex, some msg2Ex⟩

/-- Scheduler state after page 3 was dispatched. -/
def s3Ex : SchedState := ⟨4, [3], [2], st1Ex, some msg2Ex⟩

/-- Terminal scheduler state of the concrete run in `wEx`. -/
def sFinEx : SchedState :=
  ⟨4, [], [2, 3],
   [store.Article.mk "t1" "l1" [1], store.Article.mk "t3" "l3" [1]],
   some msg2Ex⟩

end Importer

/-- A concrete world whose source replies 404 with no total-pages header
on every fetch. -/
def wNoHdrEx : Importer.World :=
  ⟨fun _ _ => .ok ⟨"", 404, .ok []⟩, fun texts => .ok (texts.map (fun _ => [1])), fun _ => none⟩

/-- A vectorizer stub returning two embeddings regardless of input. -/
def vecTwoEx : Importer.Vectorizer := fun _ => .ok [[1], [2]]

/-- A decoder stub mapping every wire string to the byte list [9]. -/
def dNineEx : vectorization.Decode64 := fun _ => .ok [9]

/-- A remote stub answering two embeddings for any request. -/
def rTwoEx : vectorization.Remote := fun _ => .parsed ⟨[⟨"x", 1⟩, ⟨"y", 1⟩]⟩

/-- A store collaborator stub answering the empty hit list. -/
def searchEmptyEx : List Nat → Int → Except String (List store.SearchHit) := fun _ _ => .ok []

/-- A vectorizer collaborator stub accepting every text. -/
def vecOkEx : String → GoRes String (List Nat) := fun _ => .ok [1]

/-- The importer's production `Vectorizer` collaborator
(services/importer/cmd/main.go wires the vectorization client), its
error surfaced as the Go error message. -/
def importerProdVec (d : vectorization.Decode64) (r : vectorization.Remote) :
    Importer.Vectorizer :=
  fun texts => ((vectorization.VectorizeBatch d r texts).1).mapError vectorization.VecErr.message

/-- A concrete world whose source always answers an empty page and whose
vectorizer is the production client over stub transport oracles. -/
def wEmptyPageEx : Importer.World :=
  ⟨fun _ _ => .ok ⟨"1", 200, .ok []⟩, importerProdVec dNineEx rTwoEx, fun _ => none⟩


namespace vectorization

theorem decodeEmbeddings_ok_length (decode : Decode64) (i : Nat) (eds : List EmbeddingData)
    (out : List (List Nat)) (h : decodeEmbeddings decode i eds = .ok out) :
    out.length = eds.length := by
  induction eds generalizing i out with
  | nil => simp [decodeEmbeddings] at h; simp [← h]
  | cons ed rest ih =>
    simp only [decodeEmbeddings] at h
    cases hd : decode ed.embedding with
    | error e => simp [hd] at h
    | ok bytes =>
      simp only [hd] at h
      by_cases hb : bytes.length = 0
      · simp [hb] at h
      · simp only [hb, if_false] at h
        cases hrec : decodeEmbeddings decode (i + 1) rest with
        | error e => simp [hrec, Except.map] at h
        | ok tl =>
          simp only [hrec, Except.map] at h
          cases h
          simp [ih _ _ hrec]

theorem decodeEmbeddings_ok_pointwise (decode : Decode64) (i : Nat) (eds : List EmbeddingData)
    (out : List (List Nat)) (h : decodeEmbeddings decode i eds = .ok out) :
    eds.map (fun ed => decode ed.embedding) = out.map Except.ok := by
  induction eds generalizing i out with
  | nil => simp [decodeEmbeddings] at h; simp [← h]
  | cons ed rest ih =>
    simp only [decodeEmbeddings] at h
    cases hd : decode ed.embedding with
    | error e => simp [hd] at h
    | ok bytes =>
      simp only [hd] at h
      by_cases hb : bytes.length = 0
      · simp [hb] at h
      · simp only [hb, if_false] at h
        cases hrec : decodeEmbeddings decode (i + 1) rest with
        | error e => simp [hrec, Except.map] at h
        | ok tl =>
          simp only [hrec, Except.map] at h
          cases h
          simp [hd, ih _ _ hrec]

theorem batchFromReply_ok_length (decode : Decode64) (texts : List String)
    (reply : RemoteReply) (embs : List (List Nat))
    (h : batchFromReply decode texts reply = .ok embs) :
    embs.length = texts.length := by
  cases reply with
  | transportErr e => simp [batchFromReply] at h
  | badStatus st body => simp [batchFromReply] at h
  | readErr e => simp [batchFromReply] at h
  | unmarshalErr e => simp [batchFromReply] at h
  | parsed r =>
    simp only [batchFromReply] at h
    by_cases hl : r.embeddings.length = texts.length
    · simp only [hl, ne_eq, not_true_eq_false, if_false] at h
      rw [decodeEmbeddings_ok_length decode 0 r.embeddings embs h, hl]
    · simp [hl] at h

theorem VectorizeBatch_ok_length (decode : Decode64) (remote : Remote) (texts : List String)
    (embs : List (List Nat)) (h : (VectorizeBatch decode remote texts).1 = .ok embs) :
    embs.length = texts.length := by
  unfold VectorizeBatch at h
  by_cases hn : texts.length = 0
  · simp [hn] at h
  · simp only [hn, if_false] at h
    exact batchFromReply_ok_length decode texts (remote texts) embs h

end vectorization

namespace Importer

theorem inv_init (w : World) (C : Nat) (N : Int) (st1 : List store.Article) :
    Inv w C N st1 (initSched st1) := by
  refine ⟨le_refl 2, Or.inl rfl, Nat.zero_le C, ?_, by simp [initSched], ?_, ?_⟩
  · intro p
    have : ¬(2 ≤ p ∧ p < 2) := by omega
    simp [initSched, this]
  · intro e he
    simp [initSched] at he
  · intro _ p hp
    simp [initSched] at hp

theorem inv_step (w : World) (C : Nat) (N : Int) (st1 : List store.Article)
    (s s2 : SchedState) (hstep : Step w C N s s2) (hinv : Inv w C N st1 s) :
    Inv w C N st1 s2 := by
  cases hstep with
  | dispatch hle hcap =>
    have hlb := hinv.lb
    refine ⟨?_, ?_, ?_, ?_, hinv.sto, hinv.ferr, hinv.fok⟩
    · show 2 ≤ s.nextPage + 1
      omega
    · show s.nextPage + 1 = 2 ∨ s.nextPage + 1 ≤ N + 1
      omega
    · show (s.running ++ [s.nextPage]).length ≤ C
      simp only [List.length_append, List.length_cons, List.length_nil]
      omega
    · intro q
      show ((s.running ++ [s.nextPage]) ++ s.done).count q
          = if 2 ≤ q ∧ q < s.nextPage + 1 then 1 else 0
      have hc := hinv.cnt q
      simp only [List.count_append] at hc ⊢
      simp only [List.count_cons, List.count_nil, beq_iff_eq]
      split_ifs at hc ⊢ <;> omega
  | finish p hmem hnp =>
    refine ⟨hinv.lb, hinv.ub, ?_, ?_, ?_, ?_, ?_⟩
    · show (s.running.erase p).length ≤ C
      exact le_trans ((List.erase_sublist p s.running).length_le) hinv.cap
    · intro q
      show ((s.running.erase p) ++ (s.done ++ [p])).count q
          = if 2 ≤ q ∧ q < s.nextPage then 1 else 0
      have hc := hinv.cnt q
      simp only [List.count_append] at hc ⊢
      simp only [List.count_cons, List.count_nil, beq_iff_eq]
      by_cases hq : q = p
      · subst hq
        have hpos : 0 < s.running.count q := List.count_pos_iff.mpr hmem
        rw [List.count_erase_self]
        split_ifs at hc ⊢ <;> omega
      · rw [List.count_erase_of_ne hq]
        split_ifs at hc ⊢ <;> omega
    · show s.store ++ (vectorizePostsPage w p 100).stored
          = st1 ++ ((s.done ++ [p]).map (fun q => (vectorizePostsPage w q 100).stored)).flatten
      rw [hinv.sto]
      simp [List.map_append, List.flatten_append, List.append_assoc]
    · intro e he
      change recordErr s.firstErr (vectorizePostsPage w p 100).result = some e at he
      show ∃ q ∈ s.done ++ [p], (vectorizePostsPage w q 100).result = .err e
      cases hfe : s.firstErr with
      | some e0 =>
        simp only [recordErr, hfe] at he
        obtain ⟨q, hq, hres⟩ := hinv.ferr e0 hfe
        cases he
        exact ⟨q, List.mem_append_left _ hq, hres⟩
      | none =>
        simp only [recordErr, hfe] at he
        cases hres : (vectorizePostsPage w p 100).result with
        | ok n => rw [hres] at he; cases he
        | panicked => rw [hres] at he; cases he
        | err e1 =>
          rw [hres] at he
          cases he
          exact ⟨p, List.mem_append_right _ (List.mem_singleton.mpr rfl), hres⟩
    · intro hnone q hq e
      change recordErr s.firstErr (vectorizePostsPage w p 100).result = none at hnone
      change q ∈ s.done ++ [p] at hq
      show (vectorizePostsPage w q 100).result ≠ .err e
      cases hfe : s.firstErr with
      | some e0 => simp [recordErr, hfe] at hnone
      | none =>
        simp only [recordErr, hfe] at hnone
        rcases List.mem_append.mp hq with hq1 | hq2
        · exact hinv.fok hfe q hq1 e
        · have hqp : q = p := List.mem_singleton.mp hq2
          subst hqp
          cases hres : (vectorizePostsPage w q 100).result with
          | ok n => simp
          | panicked => simp
          | err e1 => rw [hres] at hnone; cases hnone

theorem inv_reachable (w : World) (C : Nat) (N : Int) (st1 : List store.Article)
    (s s2 : SchedState) (hr : Reachable w C N s s2) (hinv : Inv w C N st1 s) :
    Inv w C N st1 s2 := by
  induction hr with
  | refl => exact hinv
  | tail _ hstep ih => exact inv_step w C N st1 _ _ hstep ih

theorem terminal_done_count (w : World) (C : Nat) (N : Int) (st1 : List store.Article)
    (s : SchedState) (hr : Reachable w C N (initSched st1) s) (ht : Terminal N s) (p : Int) :
    s.done.count p = if 2 ≤ p ∧ p ≤ N then 1 else 0 := by
  have hinv := inv_reachable w C N st1 _ _ hr (inv_init w C N st1)
  have hc := hinv.cnt p
  rw [ht.2] at hc
  simp only [List.nil_append] at hc
  have h1 := ht.1
  rw [hc]
  rcases hinv.ub with h2 | hub <;> (split_ifs <;> omega)

theorem terminal_done_mem (w : World) (C : Nat) (N : Int) (st1 : List store.Article)
    (s : SchedState) (hr : Reachable w C N (initSched st1) s) (ht : Terminal N s)
    (p : Int) (hp2 : 2 ≤ p) (hpN : p ≤ N) : p ∈ s.done := by
  have hc := terminal_done_count w C N st1 s hr ht p
  rw [if_pos ⟨hp2, hpN⟩] at hc
  exact List.count_pos_iff.mp (by omega)

theorem reachable_store (w : World) (C : Nat) (N : Int) (st1 : List store.Article)
    (s : SchedState) (hr : Reachable w C N (initSched st1) s) :
    s.store = st1 ++ (s.done.map (fun p => (vectorizePostsPage w p 100).stored)).flatten :=
  (inv_reachable w C N st1 _ _ hr (inv_init w C N st1)).sto

theorem done_stored_mem_store (w : World) (C : Nat) (N : Int) (st1 : List store.Article)
    (s : SchedState) (hr : Reachable w C N (initSched st1) s)
    (p : Int) (hp : p ∈ s.done) (a : store.Article)
    (ha : a ∈ (vectorizePostsPage w p 100).stored) : a ∈ s.store := by
  rw [reachable_store w C N st1 s hr]
  refine List.mem_append_right _ ?_
  rw [List.mem_flatten]
  exact ⟨(vectorizePostsPage w p 100).stored, List.mem_map.mpr ⟨p, hp, rfl⟩, ha⟩

theorem pairEmbeddings_of_le (articles : List Article) (embs : List (List Nat))
    (h : embs.length ≤ articles.length) :
    pairEmbeddings articles embs
      = some ((articles.zip embs).map (fun pe => ⟨pe.1, pe.2⟩)) := by
  induction embs generalizing articles with
  | nil => cases articles <;> simp [pairEmbeddings]
  | cons e es ih =>
    cases articles with
    | nil => simp at h
    | cons a as =>
      simp only [List.length_cons, Nat.add_le_add_iff_right] at h
      simp [pairEmbeddings, ih as h, List.zip_cons_cons]

theorem pairEmbeddings_of_gt (articles : List Article) (embs : List (List Nat))
    (h : articles.length < embs.length) :
    pairEmbeddings articles embs = none := by
  induction articles generalizing embs with
  | nil =>
    cases embs with
    | nil => simp at h
    | cons e es => simp [pairEmbeddings]
  | cons a as ih =>
    cases embs with
    | nil => simp at h
    | cons e es =>
      simp only [List.length_cons, Nat.add_lt_add_iff_right] at h
      simp [pairEmbeddings, ih es h]

theorem reachEx : Reachable wEx 1 3 (initSched st1Ex) sFinEx := by
  have h1 : Step wEx 1 3 (initSched st1Ex) s1Ex := Step.dispatch _ (by decide) (by decide)
  have h2 : Step wEx 1 3 s1Ex s2Ex := Step.finish _ 2 (by decide) (by decide)
  have h3 : Step wEx 1 3 s2Ex s3Ex := Step.dispatch _ (by decide) (by decide)
  have h4 : Step wEx 1 3 s3Ex sFinEx := Step.finish _ 3 (by decide) (by decide)
  exact Relation.ReflTransGen.head h1 (Relation.ReflTransGen.head h2
    (Relation.ReflTransGen.head h3 (Relation.ReflTransGen.head h4 Relation.ReflTransGen.refl)))

end Importer


/-- C7: on the empty batch of articles, `StoreArticles` returns success
with the database unchanged and issues no remote call (no pipeline is
built or executed), whatever the pipeline oracle would do. -/
theorem StoreArticles_empty_batch_noop (exec : Option String) (db : store.Db) :
    store.StoreArticles exec db [] = (.ok db, 0) := rfl

/-- C10: `fetchPostsPage` parses the `X-WP-TotalPages` header before
checking the status code: whenever the header does not parse, the error
is the parse error even on a non-200 response, and the status-code error
can only be returned when the header parsed to a number. -/
theorem fetchPostsPage_header_parsed_before_status (resp : Importer.FetchResp) :
    (Importer.atoi resp.totalPagesHeader = none →
      Importer.fetchPostsPage (.ok resp)
        = .error (.parseTotalPages resp.totalPagesHeader)) ∧
    (∀ c : Int, Importer.fetchPostsPage (.ok resp) = .error (.badStatus c) →
      (∃ n, Importer.atoi resp.totalPagesHeader = some n)
        ∧ resp.statusCode = c ∧ c ≠ 200) := by
  constructor
  · intro hbad
    simp [Importer.fetchPostsPage, hbad]
  · intro c hres
    cases ha : Importer.atoi resp.totalPagesHeader with
    | none => simp [Importer.fetchPostsPage, ha] at hres
    | some n =>
      simp only [Importer.fetchPostsPage, ha] at hres
      by_cases hsc : resp.statusCode = 200
      · simp only [hsc, ne_eq, not_true_eq_false, if_false] at hres
        cases hb : resp.body with
        | error e => rw [hb] at hres; cases hres
        | ok posts => rw [hb] at hres; cases hres
      · simp only [hsc, ne_eq, not_false_eq_true, if_true] at hres
        cases hres
        exact ⟨⟨n, rfl⟩, rfl, hsc⟩

/-- Witness for C10 at a concrete response: missing header and status
500 yield the header-parse error, not the status error. -/
theorem fetchPostsPage_header_parsed_before_status_witness :
    Importer.atoi "" = none ∧
    Importer.fetchPostsPage (.ok ⟨"", 500, .ok []⟩)
      = .error (.parseTotalPages "") := by
  refine ⟨by decide, ?_⟩
  exact (fetchPostsPage_header_parsed_before_status ⟨"", 500, .ok []⟩).1 (by decide)

/-- C5: when the source's reply carries an absent or non-numeric
`X-WP-TotalPages` header, `vectorizePostsPage` fails with the
header-parse error (its message contains the indicator
"failed to parse total pages"), stores nothing and issues no store
call. -/
theorem vectorizePostsPage_total_pages_failure (w : Importer.World) (page hits : Int)
    (resp : Importer.FetchResp) (hf : w.fetch page hits = .ok resp)
    (hbad : Importer.atoi resp.totalPagesHeader = none) :
    (Importer.vectorizePostsPage w page hits).result
      = .err ("failed to fetch posts for page " ++ toString page ++ ": "
          ++ Importer.FetchErr.message (.parseTotalPages resp.totalPagesHeader)) ∧
    (∃ u v, ("failed to fetch posts for page " ++ toString page ++ ": "
          ++ Importer.FetchErr.message (.parseTotalPages resp.totalPagesHeader))
        = u ++ "failed to parse total pages" ++ v) ∧
    (Importer.vectorizePostsPage w page hits).stored = [] ∧
    (Importer.vectorizePostsPage w page hits).storeCalls = 0 := by
  refine ⟨?_, ?_, ?_, ?_⟩
  · simp [Importer.vectorizePostsPage, Importer.fetchPostsPage, hf, hbad]
  · refine ⟨"failed to fetch posts for page " ++ toString page ++ ": ",
      ": " ++ Importer.atoiErrMessage resp.totalPagesHeader, ?_⟩
    have hlit : ("failed to parse total pages: " : String)
        = "failed to parse total pages" ++ ": " := rfl
    simp only [Importer.FetchErr.message, hlit, String.append_assoc]
  · simp [Importer.vectorizePostsPage, Importer.fetchPostsPage, hf, hbad]
  · simp [Importer.vectorizePostsPage, Importer.fetchPostsPage, hf, hbad]

/-- Witness for C5: the missing-header world makes page 7 fail with the
header-parse message and store nothing. -/
theorem vectorizePostsPage_total_pages_failure_witness :
    (Importer.vectorizePostsPage wNoHdrEx 7 100).result
      = .err ("failed to fetch posts for page " ++ toString (7 : Int) ++ ": "
          ++ Importer.FetchErr.message (.parseTotalPages "")) ∧
    (Importer.vectorizePostsPage wNoHdrEx 7 100).stored = [] ∧
    (Importer.vectorizePostsPage wNoHdrEx 7 100).storeCalls = 0 := by
  have h := vectorizePostsPage_total_pages_failure wNoHdrEx 7 100 ⟨"", 404, .ok []⟩
    (by decide) (by decide)
  exact ⟨h.1, h.2.2.1, h.2.2.2⟩

/-- C8: `vectorizeArticles` pairs embedding i with article i by indexing
`articles[i]` for each returned embedding without a count check: when the
vectorizer returns more embeddings than texts the indexing panics, and
when it returns at most as many the call succeeds with the positional
pairing. -/
theorem vectorizeArticles_pairing (vec : Importer.Vectorizer)
    (articles : List Importer.Article) (embs : List (List Nat))
    (hv : vec (Importer.textsToVectorize articles) = .ok embs) :
    (articles.length < embs.length →
      Importer.vectorizeArticles vec articles = .panicked) ∧
    (embs.length ≤ articles.length →
      Importer.vectorizeArticles vec articles
        = .ok ((articles.zip embs).map (fun pe => ⟨pe.1, pe.2⟩))) := by
  constructor
  · intro hgt
    simp [Importer.vectorizeArticles, hv, Importer.pairEmbeddings_of_gt articles embs hgt]
  · intro hle
    simp [Importer.vectorizeArticles, hv, Importer.pairEmbeddings_of_le articles embs hle]

/-- Witness for C8: with one article and two returned embeddings the
pairing loop panics; with two articles it pairs positionally. -/
theorem vectorizeArticles_pairing_witness :
    Importer.vectorizeArticles vecTwoEx [⟨"a", "b", "c"⟩] = .panicked ∧
    Importer.vectorizeArticles vecTwoEx [⟨"a", "b", "c"⟩, ⟨"d", "e", "f"⟩]
      = .ok [⟨⟨"a", "b", "c"⟩, [1]⟩, ⟨⟨"d", "e", "f"⟩, [2]⟩] := by
  constructor
  · exact (vectorizeArticles_pairing vecTwoEx [⟨"a", "b", "c"⟩] [[1], [2]] rfl).1 (by decide)
  · have h := (vectorizeArticles_pairing vecTwoEx [⟨"a", "b", "c"⟩, ⟨"d", "e", "f"⟩]
      [[1], [2]] rfl).2 (by decide)
    simpa using h

/-- C3: for non-empty input, a successful `VectorizeBatch` returns as
many embeddings as input texts, each position the decoded bytes of the
response element at the same position; when the service answers with a
different count the call fails with the count-mismatch error instead of
returning a mismatched sequence. -/
theorem VectorizeBatch_same_length_or_mismatch (d : vectorization.Decode64)
    (r : vectorization.Remote) (texts : List String) (hne : texts ≠ []) :
    (∀ embs, (vectorization.VectorizeBatch d r texts).1 = .ok embs →
      embs.length = texts.length ∧
      ∀ resp, r texts = .parsed resp →
        resp.embeddings.map (fun ed => d ed.embedding) = embs.map Except.ok) ∧
    (∀ resp, r texts = .parsed resp → resp.embeddings.length ≠ texts.length →
      (vectorization.VectorizeBatch d r texts).1
        = .error (.countMismatch texts.length resp.embeddings.length)) := by
  have hlen : ¬texts.length = 0 := by
    intro h
    exact hne (List.length_eq_zero.mp h)
  constructor
  · intro embs hok
    refine ⟨vectorization.VectorizeBatch_ok_length d r texts embs hok, ?_⟩
    intro resp hresp
    unfold vectorization.VectorizeBatch at hok
    simp only [hlen, if_false] at hok
    have hok2 : vectorization.batchFromReply d texts (r texts) = .ok embs := hok
    rw [hresp] at hok2
    simp only [vectorization.batchFromReply] at hok2
    by_cases hl : resp.embeddings.length = texts.length
    · simp only [hl, ne_eq, not_true_eq_false, if_false] at hok2
      exact vectorization.decodeEmbeddings_ok_pointwise d 0 resp.embeddings embs hok2
    · simp [hl] at hok2
  · intro resp hresp hmis
    unfold vectorization.VectorizeBatch
    simp only [hlen, if_false]
    show vectorization.batchFromReply d texts (r texts) = _
    rw [hresp]
    simp [vectorization.batchFromReply, hmis]

/-- Witness for C3: on a two-text batch the stub remote is accepted and
the output matches positions; on a three-text batch the same remote
triggers the count-mismatch error. -/
theorem VectorizeBatch_same_length_or_mismatch_witness :
    (vectorization.VectorizeBatch dNineEx rTwoEx ["a", "b"]).1 = .ok [[9], [9]] ∧
    ([[9], [9]] : List (List Nat)).length = (["a", "b"] : List String).length ∧
    (vectorization.VectorizeBatch dNineEx rTwoEx ["a", "b", "c"]).1
      = .error (.countMismatch 3 2) := by
  refine ⟨by decide, ?_, ?_⟩
  · exact ((VectorizeBatch_same_length_or_mismatch dNineEx rTwoEx ["a", "b"]
      (by decide)).1 [[9], [9]] (by decide)).1
  · exact (VectorizeBatch_same_length_or_mismatch dNineEx rTwoEx ["a", "b", "c"]
      (by decide)).2 ⟨[⟨"x", 1⟩, ⟨"y", 1⟩]⟩ rfl (by decide)

/-- C6: the empty batch fails with the empty-input validation error and
no POST is attempted; the empty single text fails with the empty-text
validation error and no POST is attempted; a non-empty single text is
delegated to `VectorizeBatch` as a one-element batch (same attempted
calls, same error on failure, and on success the single embedding of the
returned pair is handed back). -/
theorem Vectorize_empty_and_delegation (d : vectorization.Decode64)
    (r : vectorization.Remote) (t : String) (ht : t ≠ "") :
    (vectorization.VectorizeBatch d r []).1 = .error .emptyInput ∧
    (vectorization.VectorizeBatch d r []).2 = [] ∧
    (vectorization.Vectorize d r "").1 = .err .emptyText ∧
    (vectorization.Vectorize d r "").2 = [] ∧
    (vectorization.Vectorize d r t).2 = (vectorization.VectorizeBatch d r [t]).2 ∧
    (∀ e, (vectorization.VectorizeBatch d r [t]).1 = .error e →
      (vectorization.Vectorize d r t).1 = .err e) ∧
    (∀ embs, (vectorization.VectorizeBatch d r [t]).1 = .ok embs →
      ∃ emb, embs = [emb] ∧ (vectorization.Vectorize d r t).1 = .ok emb) := by
  refine ⟨rfl, rfl, rfl, rfl, ?_, ?_, ?_⟩
  · rcases hb : vectorization.VectorizeBatch d r [t] with ⟨res, calls⟩
    simp only [vectorization.Vectorize, if_neg ht, hb]
    cases res with
    | error e => rfl
    | ok embs => cases embs <;> rfl
  · intro e he
    rcases hb : vectorization.VectorizeBatch d r [t] with ⟨res, calls⟩
    have hres : res = .error e := by rw [hb] at he; exact he
    subst hres
    simp [vectorization.Vectorize, if_neg ht, hb]
  · intro embs hok
    have hlen1 : embs.length = 1 := by
      have h2 := vectorization.VectorizeBatch_ok_length d r [t] embs hok
      simpa using h2
    cases embs with
    | nil => simp at hlen1
    | cons e0 tl =>
      cases tl with
      | nil =>
        refine ⟨e0, rfl, ?_⟩
        rcases hb : vectorization.VectorizeBatch d r [t] with ⟨res, calls⟩
        have hres : res = .ok [e0] := by rw [hb] at hok; exact hok
        subst hres
        simp [vectorization.Vectorize, if_neg ht, hb]
      | cons e1 tl2 => simp at hlen1

/-- Witness for C6 at concrete oracles: the empty batch and the empty
text fail with the validation errors and an empty call log, and the text
"q" is delegated to a one-element batch (here the stub remote answers a
wrong count, which is handed back unchanged). -/
theorem Vectorize_empty_and_delegation_witness :
    (vectorization.VectorizeBatch dNineEx rTwoEx []).1 = .error .emptyInput ∧
    (vectorization.VectorizeBatch dNineEx rTwoEx []).2 = [] ∧
    (vectorization.Vectorize dNineEx rTwoEx "").1 = .err .emptyText ∧
    (vectorization.Vectorize dNineEx rTwoEx "").2 = [] ∧
    (vectorization.Vectorize dNineEx rTwoEx "q").2
      = (vectorization.VectorizeBatch dNineEx rTwoEx ["q"]).2 ∧
    (vectorization.Vectorize dNineEx rTwoEx "q").1 = .err (.countMismatch 1 2) := by
  have h := Vectorize_empty_and_delegation dNineEx rTwoEx "q" (by decide)
  exact ⟨h.1, h.2.1, h.2.2.1, h.2.2.2.1, h.2.2.2.2.1,
    h.2.2.2.2.2.1 (.countMismatch 1 2) (by decide)⟩

/-- C4 (amended): `handleSearch` has no empty-query special case.  When
the vectorizer collaborator returns an embedding for the empty string
(as the repository's test mock does), the handler returns a well-formed
200 response with count equal to the number of results; wired to the
production vectorizer client, which rejects empty text, the empty query
instead surfaces as the standard 500 embedding-failure response. -/
theorem handleSearch_empty_query_follows_vectorizer
    (vec : String → GoRes String (List Nat))
    (search : List Nat → Int → Except String (List store.SearchHit))
    (emb : List Nat) (hits : List store.SearchHit)
    (hv : vec "" = .ok emb) (hs : search emb 10 = .ok hits) :
    retrieval.handleSearch vec search "POST" (.ok ⟨""⟩)
      = .jsonOut 200
          ⟨hits.map (fun h => ⟨h.title, h.link, h.score⟩),
           (hits.map (fun h => retrieval.SearchResult.mk h.title h.link h.score)).length⟩ ∧
    ∀ d r, retrieval.handleSearch (retrieval.prodVec d r) search "POST" (.ok ⟨""⟩)
      = .httpError 500 "Failed to generate query embedding" := by
  constructor
  · simp [retrieval.handleSearch, hv, hs]
  · intro d r
    rfl

/-- Counterexample for C4 as frozen: with the production vectorizer
client (the wiring of cmd/main.go), a POST /search whose body decodes to
the empty query is answered with the 500 embedding-failure error, not a
200 result set. -/
theorem handleSearch_empty_query_counterexample :
    retrieval.handleSearch (retrieval.prodVec dNineEx rTwoEx) searchEmptyEx "POST" (.ok ⟨""⟩)
      = .httpError 500 "Failed to generate query embedding" := rfl

/-- Witness for the amended C4: a mock vectorizer gives the well-formed
200 empty result set, the production client gives the 500. -/
theorem handleSearch_empty_query_witness :
    retrieval.handleSearch vecOkEx searchEmptyEx "POST" (.ok ⟨""⟩)
      = .jsonOut 200 ⟨[], 0⟩ ∧
    retrieval.handleSearch (retrieval.prodVec dNineEx rTwoEx) searchEmptyEx "POST" (.ok ⟨""⟩)
      = .httpError 500 "Failed to generate query embedding" := by
  have h := handleSearch_empty_query_follows_vectorizer vecOkEx searchEmptyEx [1] [] rfl rfl
  exact ⟨h.1, h.2 dNineEx rTwoEx⟩

/-- C9: a fetched page with zero documents is not skipped --
`vectorizePostsPage` still calls `vectorizeArticles`, which hands the
empty text slice to the vectorizer; with the production vectorizer
client, which rejects empty input, the page pipeline therefore fails
(and stores nothing) instead of succeeding with nothing stored. -/
theorem vectorizePostsPage_empty_page_not_skipped (w : Importer.World) (page hits : Int)
    (resp : Importer.FetchResp) (n : Int)
    (d : vectorization.Decode64) (r : vectorization.Remote)
    (hf : w.fetch page hits = .ok resp)
    (hn : Importer.atoi resp.totalPagesHeader = some n)
    (hsc : resp.statusCode = 200)
    (hb : resp.body = .ok [])
    (hvec : w.vec = importerProdVec d r) :
    (Importer.vectorizePostsPage w page hits).result
      = .err ("failed to vectorize articles: "
          ++ ("failed to vectorize articles in batch: " ++ "texts cannot be empty")) ∧
    (Importer.vectorizePostsPage w page hits).stored = [] ∧
    (Importer.vectorizePostsPage w page hits).storeCalls = 0 := by
  have hpipe : Importer.vectorizeArticles w.vec []
      = .err ("failed to vectorize articles in batch: " ++ "texts cannot be empty") := by
    rw [hvec]
    rfl
  refine ⟨?_, ?_, ?_⟩ <;>
    simp [Importer.vectorizePostsPage, Importer.fetchPostsPage, hf, hn, hsc, hb, hpipe]

/-- Witness for C9: the empty-page world fails the page pipeline with
the empty-input vectorizer error and stores nothing. -/
theorem vectorizePostsPage_empty_page_not_skipped_witness :
    (Importer.vectorizePostsPage wEmptyPageEx 1 100).result
      = .err ("failed to vectorize articles: "
          ++ ("failed to vectorize articles in batch: " ++ "texts cannot be empty")) ∧
    (Importer.vectorizePostsPage wEmptyPageEx 1 100).stored = [] ∧
    (Importer.vectorizePostsPage wEmptyPageEx 1 100).storeCalls = 0 :=
  vectorizePostsPage_empty_page_not_skipped wEmptyPageEx 1 100 ⟨"1", 200, .ok []⟩ 1
    dNineEx rTwoEx (by decide) (by decide) rfl rfl rfl

/-- C1: in any completed `initialImport` run whose fan-out contains a
failing page task, the call returns the failure built from the first
recorded task error (which is the error of some finished page task),
while every page of the run still runs to completion and the writes of
every page (in particular every succeeding page) are present in the
final store: nothing is rolled back. -/
theorem initialImport_first_error_no_rollback (w : Importer.World) (C : Nat)
    (st0 : List store.Article) (n : Int) (s : Importer.SchedState) (p : Int)
    (h1 : (Importer.vectorizePostsPage w 1 100).result = .ok n)
    (hr : Importer.Reachable w C n
      (Importer.initSched (st0 ++ (Importer.vectorizePostsPage w 1 100).stored)) s)
    (ht : Importer.Terminal n s)
    (hp2 : 2 ≤ p) (hpn : p ≤ n)
    (hfail : ∃ e, (Importer.vectorizePostsPage w p 100).result = .err e) :
    (∃ e, s.firstErr = some e ∧
      Importer.InitialImport w C st0 (.err ("error during initial import: " ++ e) s.store) ∧
      ∃ q ∈ s.done, (Importer.vectorizePostsPage w q 100).result = .err e) ∧
    (∀ q, 2 ≤ q → q ≤ n → q ∈ s.done ∧
      ∀ a ∈ (Importer.vectorizePostsPage w q 100).stored, a ∈ s.store) := by
  have hinv := Importer.inv_reachable w C n _ _ s hr (Importer.inv_init w C n _)
  constructor
  · obtain ⟨e0, he0⟩ := hfail
    have hpmem : p ∈ s.done := Importer.terminal_done_mem w C n _ s hr ht p hp2 hpn
    cases hfe : s.firstErr with
    | none => exact absurd he0 (hinv.fok hfe p hpmem e0)
    | some e =>
      refine ⟨e, rfl, ?_, hinv.ferr e hfe⟩
      have himp := Importer.InitialImport.completes n s h1 hr ht
      simpa [Importer.schedOutcome, hfe] using himp
  · intro q hq2 hqn
    have hqmem : q ∈ s.done := Importer.terminal_done_mem w C n _ s hr ht q hq2 hqn
    exact ⟨hqmem, fun a ha => Importer.done_stored_mem_store w C n _ s hr q hqmem a ha⟩

/-- Witness for C1: in the concrete three-page run where page 2 answers
500 and pages 1 and 3 succeed, the import returns the wrapped page-2
error and the page-3 document is present in the final store. -/
theorem initialImport_first_error_no_rollback_witness :
    Importer.InitialImport Importer.wEx 1 []
      (.err ("error during initial import: " ++ Importer.msg2Ex) Importer.sFinEx.store) ∧
    (3 : Int) ∈ Importer.sFinEx.done ∧
    store.Article.mk "t3" "l3" [1] ∈ Importer.sFinEx.store := by
  obtain ⟨⟨e, hfe, himp, -⟩, hall⟩ :=
    initialImport_first_error_no_rollback Importer.wEx 1 [] 3 Importer.sFinEx 2 (by decide)
      Importer.reachEx ⟨by decide, rfl⟩ (by decide) (by decide) ⟨Importer.msg2Ex, by decide⟩
  have h2 : some Importer.msg2Ex = some e := hfe
  cases h2
  obtain ⟨hmem, hsub⟩ := hall 3 (by decide) (by decide)
  exact ⟨himp, hmem, hsub _ (by decide)⟩

/-- C2: under any concurrency ceiling `C ≥ 1`, at every point of the
fan-out at most `C` page tasks are in flight, and in any completed run
every page `2..N` is processed exactly once, the final store being the
store after the (single) page-1 call extended by exactly one batch of
writes per finished page. -/
theorem initialImport_bounded_exactly_once (w : Importer.World) (C : Nat)
    (st0 : List store.Article) (n : Int) (s : Importer.SchedState)
    (hC : 1 ≤ C)
    (h1 : (Importer.vectorizePostsPage w 1 100).result = .ok n)
    (hr : Importer.Reachable w C n
      (Importer.initSched (st0 ++ (Importer.vectorizePostsPage w 1 100).stored)) s) :
    s.running.length ≤ C ∧
    (Importer.Terminal n s →
      (∀ p : Int, s.done.count p = if 2 ≤ p ∧ p ≤ n then 1 else 0) ∧
      s.store = st0 ++ (Importer.vectorizePostsPage w 1 100).stored
        ++ (s.done.map (fun p => (Importer.vectorizePostsPage w p 100).stored)).flatten) := by
  have hinv := Importer.inv_reachable w C n _ _ s hr (Importer.inv_init w C n _)
  refine ⟨hinv.cap, fun ht => ⟨fun p => Importer.terminal_done_count w C n _ s hr ht p, ?_⟩⟩
  exact Importer.reachable_store w C n _ s hr

/-- Witness for C2 on the concrete run with ceiling 1: never more than
one task in flight, pages 2 and 3 each finished exactly once, page 5
never, and the final store is page 1's write followed by one batch per
finished page. -/
theorem initialImport_bounded_exactly_once_witness :
    Importer.sFinEx.running.length ≤ 1 ∧
    Importer.sFinEx.done.count 2 = 1 ∧
    Importer.sFinEx.done.count 3 = 1 ∧
    Importer.sFinEx.done.count 5 = 0 ∧
    Importer.sFinEx.store = [] ++ (Importer.vectorizePostsPage Importer.wEx 1 100).stored
      ++ (Importer.sFinEx.done.map
          (fun p => (Importer.vectorizePostsPage Importer.wEx p 100).stored)).flatten := by
  obtain ⟨hcap, hterm⟩ := initialImport_bounded_exactly_once Importer.wEx 1 [] 3 Importer.sFinEx
    (by decide) (by decide) Importer.reachEx
  obtain ⟨hcnt, hsto⟩ := hterm ⟨by decide, rfl⟩
  refine ⟨hcap, ?_, ?_, ?_, hsto⟩
  · rw [hcnt 2]
    decide
  · rw [hcnt 3]
    decide
  · rw [hcnt 5]
    decide
